import Mathlib

/-!
Verification of the geometry-derivation core of the Multi-Monitor Planner
(src/script.js): `MonitorFactory.createMonitor` and the placement logic of
`SceneManager.addOrUpdateMonitor`.

JavaScript numbers that reach the core are results of `parseFloat`; we model
such a value as `Option ℝ`, `none` standing for NaN (every comparison with
NaN is false in JavaScript, matching `Option.rec` on `none`).  All other
arithmetic is over ℝ.
-/

set_option maxHeartbeats 1000000

open Classical

noncomputable section

namespace MonitorPlanner

/-- JavaScript `parseFloat(x) || d`: NaN (modelled `none`) and `0` are falsy,
so both fall back to the default `d`; any other number passes through
(src/script.js lines 12-14). -/
def jsOrDefault (x : Option ℝ) (d : ℝ) : ℝ :=
  match x with
  | none => d
  | some v => if v = 0 then d else v

/-- The config record destructured by `MonitorFactory.createMonitor`
(src/script.js line 10).  The numeric fields hold the `parseFloat` view of
the raw input: `none` models NaN (a non-numeric input such as "abc"). -/
structure MonitorConfig where
  id : ℕ
  name : String
  inches : Option ℝ
  ratioW : Option ℝ
  ratioH : Option ℝ
  curvature : Option ℝ
  isPortrait : Bool
  locked : Bool

/-- Line 12: `inches = Math.max(1, parseFloat(inches) || 27)`. -/
def inchesClamped (cfg : MonitorConfig) : ℝ := max 1 (jsOrDefault cfg.inches 27)

/-- Line 13: `ratioW = Math.max(0.1, parseFloat(ratioW) || 16)`. -/
def ratioWClamped (cfg : MonitorConfig) : ℝ := max 0.1 (jsOrDefault cfg.ratioW 16)

/-- Line 14: `ratioH = Math.max(0.1, parseFloat(ratioH) || 9)`. -/
def ratioHClamped (cfg : MonitorConfig) : ℝ := max 0.1 (jsOrDefault cfg.ratioH 9)

/-- Line 16: `const diagonalMm = inches * 25.4`. -/
def diagonalMm (cfg : MonitorConfig) : ℝ := inchesClamped cfg * 25.4

/-- Line 17: `const ratio = ratioW / ratioH`. -/
def ratioWH (cfg : MonitorConfig) : ℝ := ratioWClamped cfg / ratioHClamped cfg

/-- Line 18: `const heightMm = Math.sqrt((diagonalMm * diagonalMm) / (ratio * ratio + 1))`. -/
def heightMm (cfg : MonitorConfig) : ℝ :=
  Real.sqrt ((diagonalMm cfg * diagonalMm cfg) / (ratioWH cfg * ratioWH cfg + 1))

/-- Line 19: `const widthMm = heightMm * ratio`. -/
def widthMm (cfg : MonitorConfig) : ℝ := heightMm cfg * ratioWH cfg

/-- Lines 21-29: `radius = parseFloat(curvature)`; curvature is valid iff
`radius > 0 && radius < 10000` and `widthMm < (2 * Math.PI * radius) * 0.95`.
With a NaN radius (`none`) both guards are false. -/
def isValidCurvature (cfg : MonitorConfig) : Bool :=
  match cfg.curvature with
  | none => false
  | some radius =>
    if 0 < radius ∧ radius < 10000 then
      if widthMm cfg < 2 * Real.pi * radius * 0.95 then true else false
    else false

/-- The flat branch, lines 49-61: a `PlaneGeometry(widthMm, heightMm)` screen
at the group origin and a `BoxGeometry(widthMm, heightMm, 20)` body translated
to z = -10.1. -/
structure FlatGeometry where
  screenWidth : ℝ
  screenHeight : ℝ
  bodyWidth : ℝ
  bodyHeight : ℝ
  bodyDepth : ℝ
  bodyZ : ℝ

def flatGeometry (cfg : MonitorConfig) : FlatGeometry :=
  { screenWidth := widthMm cfg
    screenHeight := heightMm cfg
    bodyWidth := widthMm cfg
    bodyHeight := heightMm cfg
    bodyDepth := 20
    bodyZ := -10.1 }

/-- The curved branch, lines 63-98: an open `CylinderGeometry` of the given
radius and height `heightMm`, spanning `theta = widthMm / radius` starting at
`π - theta/2`, translated to z = radius + 0.5, its texture mirrored in x
(`texture.repeat.set(-1, 1)`); the body is the extrusion (depth `heightMm`)
of the annular sector between the arcs at `radius` and `radius + 20` spanning
`-theta/2 .. theta/2`, re-oriented and finally translated to z = radius. -/
structure CurvedGeometry where
  radius : ℝ
  theta : ℝ
  thetaStart : ℝ
  cylHeight : ℝ
  screenZ : ℝ
  textureMirroredX : Bool
  bodyInnerRadius : ℝ
  bodyOuterRadius : ℝ
  bodyArcStart : ℝ
  bodyArcEnd : ℝ
  bodyDepth : ℝ
  bodyZ : ℝ

def curvedGeometry (cfg : MonitorConfig) (radius : ℝ) : CurvedGeometry :=
  { radius := radius
    theta := widthMm cfg / radius
    thetaStart := Real.pi - (widthMm cfg / radius) / 2
    cylHeight := heightMm cfg
    screenZ := radius + 0.5
    textureMirroredX := true
    bodyInnerRadius := radius
    bodyOuterRadius := radius + 20
    bodyArcStart := -(widthMm cfg / radius) / 2
    bodyArcEnd := (widthMm cfg / radius) / 2
    bodyDepth := heightMm cfg
    bodyZ := radius }

/-- The geometry descriptor handed to the scene: the `if (!isValidCurvature)`
branch of lines 49-99. -/
inductive ScreenGeometry where
  | flat : FlatGeometry → ScreenGeometry
  | curved : CurvedGeometry → ScreenGeometry

def screenGeometry (cfg : MonitorConfig) : ScreenGeometry :=
  match cfg.curvature, isValidCurvature cfg with
  | some radius, true => ScreenGeometry.curved (curvedGeometry cfg radius)
  | _, _ => ScreenGeometry.flat (flatGeometry cfg)

/-- The group returned by `createMonitor`: derived geometry, the portrait
rotation of lines 101-103, `distanceToBottom` of line 105, and the identity /
lock data of lines 107-112.  A fresh group sits at the origin with zero x/y
rotation. -/
structure MonitorGroup where
  id : ℕ
  geometry : ScreenGeometry
  rotX : ℝ
  rotY : ℝ
  rotZ : ℝ
  posX : ℝ
  posY : ℝ
  posZ : ℝ
  distanceToBottom : ℝ
  locked : Bool

/-- `MonitorFactory.createMonitor` (src/script.js lines 9-120), restricted to
the derived geometry and transform data (materials, textures and scene-graph
bookkeeping carry no geometric information). -/
def createMonitor (cfg : MonitorConfig) : MonitorGroup :=
  { id := cfg.id
    geometry := screenGeometry cfg
    rotX := 0
    rotY := 0
    rotZ := if cfg.isPortrait then -(Real.pi / 2) else 0
    posX := 0
    posY := 0
    posZ := 0
    distanceToBottom := (if cfg.isPortrait then widthMm cfg else heightMm cfg) / 2
    locked := cfg.locked }

/-- A previous world transform of a monitor group (`prevTransform` of
`SceneManager.addOrUpdateMonitor`). -/
structure Transform where
  posX : ℝ
  posY : ℝ
  posZ : ℝ
  rotX : ℝ
  rotY : ℝ
  rotZ : ℝ

/-- `SceneManager.addOrUpdateMonitor` (src/script.js lines 252-271), viewed as
the transform given to the rebuilt group: with a previous transform it copies
the position and the x- and y-rotations only (lines 258-260), leaving the
z-rotation as `createMonitor` set it; without one it spawns the group at
`(0, distanceToBottom + 50, 0)` (line 262). -/
def addOrUpdateMonitor (cfg : MonitorConfig) (prevTransform : Option Transform) :
    MonitorGroup :=
  let group := createMonitor cfg
  match prevTransform with
  | some prev =>
    { group with
      posX := prev.posX
      posY := prev.posY
      posZ := prev.posZ
      rotX := prev.rotX
      rotY := prev.rotY }
  | none =>
    { group with posX := 0, posY := group.distanceToBottom + 50, posZ := 0 }

/-- The config `App.addMonitor` creates (src/script.js lines 509-518):
27 inch, 16:9, flat, landscape, unlocked. -/
def defaultConfig : MonitorConfig :=
  { id := 1
    name := "Monitor 1"
    inches := some 27
    ratioW := some 16
    ratioH := some 9
    curvature := some 0
    isPortrait := false
    locked := false }

/-- The default panel with the 1500R curvature offered by the UI slider. -/
def cfg1500 : MonitorConfig := { defaultConfig with curvature := some 1500 }

/-- A diagonal strictly between 0 and 1: the claim's hypotheses hold but the
floor clamp of line 12 raises it to 1. -/
def cfgHalfInch : MonitorConfig := { defaultConfig with inches := some 0.5 }

/-- The degenerate input of the spec's test list: diagonal "abc" (NaN),
ratioW = 0, ratioH = -5. -/
def cfgDegenerate : MonitorConfig :=
  { defaultConfig with inches := none, ratioW := some 0, ratioH := some (-5) }

/-- The radius that puts the default panel exactly on the curvature gate's
boundary: `widthMm = 0.95 * (2 * π * boundaryRadius)`. -/
def boundaryRadius : ℝ := widthMm defaultConfig / (0.95 * (2 * Real.pi))

/-- The default panel at the exact curvature boundary. -/
def cfgBoundary : MonitorConfig := { defaultConfig with curvature := some boundaryRadius }

/-- The default config with a different identity, name and lock flag but the
same geometric inputs. -/
def defaultConfigRenamed : MonitorConfig :=
  { defaultConfig with id := 2, name := "Copy", locked := true }

/-! Helper lemmas about the derivation. -/

lemma jsOrDefault_none (d : ℝ) : jsOrDefault none d = d := rfl

lemma jsOrDefault_some_ne_zero (v d : ℝ) (h : v ≠ 0) : jsOrDefault (some v) d = v := by
  simp [jsOrDefault, h]

lemma jsOrDefault_some_zero (d : ℝ) : jsOrDefault (some 0) d = d := by
  simp [jsOrDefault]

lemma one_le_inchesClamped (cfg : MonitorConfig) : 1 ≤ inchesClamped cfg :=
  le_max_left _ _

lemma inchesClamped_pos (cfg : MonitorConfig) : 0 < inchesClamped cfg :=
  lt_of_lt_of_le one_pos (one_le_inchesClamped cfg)

lemma diagonalMm_pos (cfg : MonitorConfig) : 0 < diagonalMm cfg :=
  mul_pos (inchesClamped_pos cfg) (by norm_num)

lemma ratioWClamped_pos (cfg : MonitorConfig) : 0 < ratioWClamped cfg := by
  have h : (0.1 : ℝ) ≤ ratioWClamped cfg := le_max_left _ _
  linarith

lemma ratioHClamped_pos (cfg : MonitorConfig) : 0 < ratioHClamped cfg := by
  have h : (0.1 : ℝ) ≤ ratioHClamped cfg := le_max_left _ _
  linarith

lemma ratioWH_pos (cfg : MonitorConfig) : 0 < ratioWH cfg :=
  div_pos (ratioWClamped_pos cfg) (ratioHClamped_pos cfg)

lemma ratioWH_sq_add_one_pos (cfg : MonitorConfig) :
    0 < ratioWH cfg * ratioWH cfg + 1 :=
  add_pos_of_nonneg_of_pos (mul_self_nonneg _) one_pos

lemma heightMm_pos (cfg : MonitorConfig) : 0 < heightMm cfg := by
  unfold heightMm
  have hd := diagonalMm_pos cfg
  exact Real.sqrt_pos.mpr (div_pos (mul_pos hd hd) (ratioWH_sq_add_one_pos cfg))

lemma widthMm_pos (cfg : MonitorConfig) : 0 < widthMm cfg :=
  mul_pos (heightMm_pos cfg) (ratioWH_pos cfg)

lemma heightMm_mul_self (cfg : MonitorConfig) :
    heightMm cfg * heightMm cfg =
      diagonalMm cfg * diagonalMm cfg / (ratioWH cfg * ratioWH cfg + 1) := by
  unfold heightMm
  exact Real.mul_self_sqrt
    (div_nonneg (mul_self_nonneg _) (le_of_lt (ratioWH_sq_add_one_pos cfg)))

lemma width_sq_add_height_sq (cfg : MonitorConfig) :
    widthMm cfg * widthMm cfg + heightMm cfg * heightMm cfg =
      diagonalMm cfg * diagonalMm cfg := by
  have hne : ratioWH cfg * ratioWH cfg + 1 ≠ 0 := ne_of_gt (ratioWH_sq_add_one_pos cfg)
  have h2 : heightMm cfg * heightMm cfg * (ratioWH cfg * ratioWH cfg + 1) =
      diagonalMm cfg * diagonalMm cfg := by
    rw [heightMm_mul_self, div_mul_cancel₀ _ hne]
  unfold widthMm
  linear_combination h2

lemma width_div_height (cfg : MonitorConfig) :
    widthMm cfg / heightMm cfg = ratioWH cfg := by
  have hh : heightMm cfg ≠ 0 := ne_of_gt (heightMm_pos cfg)
  unfold widthMm
  rw [mul_comm, mul_div_assoc, div_self hh, mul_one]

lemma widthMm_le_diagonalMm (cfg : MonitorConfig) : widthMm cfg ≤ diagonalMm cfg := by
  have h := width_sq_add_height_sq cfg
  have hw := widthMm_pos cfg
  have hh := heightMm_pos cfg
  have hd := diagonalMm_pos cfg
  nlinarith

lemma widthMm_congr (c1 c2 : MonitorConfig) (h1 : c1.inches = c2.inches)
    (h2 : c1.ratioW = c2.ratioW) (h3 : c1.ratioH = c2.ratioH) :
    widthMm c1 = widthMm c2 := by
  unfold widthMm heightMm diagonalMm ratioWH inchesClamped ratioWClamped ratioHClamped
  rw [h1, h2, h3]

lemma heightMm_congr (c1 c2 : MonitorConfig) (h1 : c1.inches = c2.inches)
    (h2 : c1.ratioW = c2.ratioW) (h3 : c1.ratioH = c2.ratioH) :
    heightMm c1 = heightMm c2 := by
  unfold heightMm diagonalMm ratioWH inchesClamped ratioWClamped ratioHClamped
  rw [h1, h2, h3]

lemma isValidCurvature_none (cfg : MonitorConfig) (h : cfg.curvature = none) :
    isValidCurvature cfg = false := by
  unfold isValidCurvature
  rw [h]

lemma isValidCurvature_some_iff (cfg : MonitorConfig) (r : ℝ)
    (h : cfg.curvature = some r) :
    isValidCurvature cfg = true ↔
      0 < r ∧ r < 10000 ∧ widthMm cfg < 2 * Real.pi * r * 0.95 := by
  simp only [isValidCurvature, h]
  split_ifs with h1 h2
  · exact iff_of_true rfl ⟨h1.1, h1.2, h2⟩
  · exact iff_of_false (by simp) (fun hx => h2 hx.2.2)
  · exact iff_of_false (by simp) (fun hx => h1 ⟨hx.1, hx.2.1⟩)

lemma isValidCurvature_iff (cfg : MonitorConfig) :
    isValidCurvature cfg = true ↔
      ∃ r, cfg.curvature = some r ∧ 0 < r ∧ r < 10000 ∧
        widthMm cfg < 2 * Real.pi * r * 0.95 := by
  cases hc : cfg.curvature with
  | none =>
    rw [isValidCurvature_none cfg hc]
    simp [hc]
  | some r =>
    rw [isValidCurvature_some_iff cfg r hc]
    constructor
    · rintro ⟨h1, h2, h3⟩
      exact ⟨r, rfl, h1, h2, h3⟩
    · rintro ⟨s, hs, h1, h2, h3⟩
      injection hs with h4
      subst h4
      exact ⟨h1, h2, h3⟩

lemma screenGeometry_flat (cfg : MonitorConfig) (h : isValidCurvature cfg = false) :
    screenGeometry cfg = ScreenGeometry.flat (flatGeometry cfg) := by
  unfold screenGeometry
  rw [h]
  cases cfg.curvature <;> rfl

lemma screenGeometry_curved (cfg : MonitorConfig) (r : ℝ)
    (hc : cfg.curvature = some r) (h : isValidCurvature cfg = true) :
    screenGeometry cfg = ScreenGeometry.curved (curvedGeometry cfg r) := by
  unfold screenGeometry
  rw [hc, h]

/-! Evaluation at the concrete configs. -/

lemma inchesClamped_defaultConfig : inchesClamped defaultConfig = 27 := by
  unfold inchesClamped
  rw [show defaultConfig.inches = some (27 : ℝ) from rfl,
    jsOrDefault_some_ne_zero _ _ (by norm_num)]
  exact max_eq_right (by norm_num)

lemma diagonalMm_defaultConfig : diagonalMm defaultConfig = 685.8 := by
  unfold diagonalMm
  rw [inchesClamped_defaultConfig]
  norm_num

lemma diagonalMm_cfg1500 : diagonalMm cfg1500 = 685.8 := by
  have h : diagonalMm cfg1500 = diagonalMm defaultConfig := rfl
  rw [h, diagonalMm_defaultConfig]

lemma cfg1500_valid : isValidCurvature cfg1500 = true := by
  rw [isValidCurvature_some_iff cfg1500 1500 rfl]
  refine ⟨by norm_num, by norm_num, ?_⟩
  have h1 : widthMm cfg1500 ≤ diagonalMm cfg1500 := widthMm_le_diagonalMm _
  have h2 := diagonalMm_cfg1500
  have h3 : (3 : ℝ) < Real.pi := Real.pi_gt_three
  nlinarith

lemma boundary_width_eq :
    widthMm cfgBoundary = 2 * Real.pi * boundaryRadius * 0.95 := by
  have hw : widthMm cfgBoundary = widthMm defaultConfig := rfl
  rw [hw]
  unfold boundaryRadius
  field_simp
  ring

lemma cfgBoundary_invalid : isValidCurvature cfgBoundary = false := by
  rcases Bool.eq_false_or_eq_true (isValidCurvature cfgBoundary) with hb | hb
  · exfalso
    obtain ⟨s, hs, h1, h2, h3⟩ := (isValidCurvature_iff cfgBoundary).mp hb
    have hs2 : (some boundaryRadius : Option ℝ) = some s := hs
    injection hs2 with h4
    subst h4
    rw [boundary_width_eq] at h3
    exact lt_irrefl _ h3
  · exact hb

/-! The claims. -/

/-- Claim C1 fails as stated: for the diagonal 0.5 (which is greater than 0,
so the claim applies) the floor clamp of line 12 raises the diagonal to 1, so
the derived panel satisfies width² + height² = (1 * 25.4)², not
(0.5 * 25.4)² as the claim asserts. -/
theorem c1_pythagoras_counterexample :
    cfgHalfInch.inches = some 0.5 ∧ (0 : ℝ) < 0.5 ∧
    widthMm cfgHalfInch * widthMm cfgHalfInch +
        heightMm cfgHalfInch * heightMm cfgHalfInch ≠ 0.5 * 25.4 * (0.5 * 25.4) := by
  refine ⟨rfl, by norm_num, ?_⟩
  have h := width_sq_add_height_sq cfgHalfInch
  have h1 : inchesClamped cfgHalfInch = 1 := by
    unfold inchesClamped
    rw [show cfgHalfInch.inches = some (0.5 : ℝ) from rfl,
      jsOrDefault_some_ne_zero _ _ (by norm_num)]
    exact max_eq_left (by norm_num)
  have hd : diagonalMm cfgHalfInch = 25.4 := by
    unfold diagonalMm
    rw [h1]
    norm_num
  rw [h, hd]
  norm_num

/-- Claim C1 (amended): for every numeric diagonal d ≥ 1 and numeric aspect
ratios ratioW, ratioH ≥ 0.1 (inputs the clamps of lines 12-14 leave
unchanged), createMonitor computes width and height that are positive and
satisfy width / height = ratioW / ratioH and width² + height² = (d * 25.4)²
exactly over the reals. -/
theorem c1_panel_dimensions (cfg : MonitorConfig) (d rW rH : ℝ)
    (hd : cfg.inches = some d) (hd1 : 1 ≤ d)
    (hw : cfg.ratioW = some rW) (hw1 : 0.1 ≤ rW)
    (hh : cfg.ratioH = some rH) (hh1 : 0.1 ≤ rH) :
    0 < widthMm cfg ∧ 0 < heightMm cfg ∧
    widthMm cfg / heightMm cfg = rW / rH ∧
    widthMm cfg * widthMm cfg + heightMm cfg * heightMm cfg =
      d * 25.4 * (d * 25.4) := by
  have hic : inchesClamped cfg = d := by
    unfold inchesClamped
    rw [hd, jsOrDefault_some_ne_zero _ _ (by linarith)]
    exact max_eq_right hd1
  have hwc : ratioWClamped cfg = rW := by
    unfold ratioWClamped
    rw [hw, jsOrDefault_some_ne_zero _ _ (by linarith)]
    exact max_eq_right hw1
  have hhc : ratioHClamped cfg = rH := by
    unfold ratioHClamped
    rw [hh, jsOrDefault_some_ne_zero _ _ (by linarith)]
    exact max_eq_right hh1
  have hratio : ratioWH cfg = rW / rH := by
    unfold ratioWH
    rw [hwc, hhc]
  refine ⟨widthMm_pos cfg, heightMm_pos cfg, ?_, ?_⟩
  · rw [width_div_height, hratio]
  · have h := width_sq_add_height_sq cfg
    have hdm : diagonalMm cfg = d * 25.4 := by
      unfold diagonalMm
      rw [hic]
    rw [h, hdm]

/-- Witness for C1 (amended) at the default 27-inch 16:9 panel. -/
theorem c1_panel_dimensions_witness :
    0 < widthMm defaultConfig ∧ 0 < heightMm defaultConfig ∧
    widthMm defaultConfig / heightMm defaultConfig = 16 / 9 ∧
    widthMm defaultConfig * widthMm defaultConfig +
        heightMm defaultConfig * heightMm defaultConfig =
      27 * 25.4 * (27 * 25.4) :=
  c1_panel_dimensions defaultConfig 27 16 9 rfl (by norm_num) rfl (by norm_num)
    rfl (by norm_num)

/-- Claim C2: curvature is accepted iff the radius is a number with
0 < radius < 10000 and width < 0.95 * (2π * radius), both strict; at the
exact boundary width = 0.95 * (2π * radius) it is rejected; a rejected
curvature yields the flat descriptor with the same width and height.  The
final conjunct exercises the boundary on a concrete config whose radius is
exactly width / (0.95 * 2π). -/
theorem c2_curvature_gate (cfg : MonitorConfig) :
    (isValidCurvature cfg = true ↔
      ∃ r, cfg.curvature = some r ∧ 0 < r ∧ r < 10000 ∧
        widthMm cfg < 0.95 * (2 * Real.pi * r)) ∧
    (∀ r, cfg.curvature = some r → widthMm cfg = 0.95 * (2 * Real.pi * r) →
      isValidCurvature cfg = false) ∧
    (isValidCurvature cfg = false →
      screenGeometry cfg = ScreenGeometry.flat (flatGeometry cfg) ∧
      (flatGeometry cfg).screenWidth = widthMm cfg ∧
      (flatGeometry cfg).screenHeight = heightMm cfg) ∧
    isValidCurvature cfgBoundary = false := by
  have key : isValidCurvature cfg = true ↔
      ∃ r, cfg.curvature = some r ∧ 0 < r ∧ r < 10000 ∧
        widthMm cfg < 0.95 * (2 * Real.pi * r) := by
    rw [isValidCurvature_iff]
    refine exists_congr fun r => and_congr_right fun _ =>
      and_congr_right fun _ => and_congr_right fun _ => ?_
    rw [show (0.95 : ℝ) * (2 * Real.pi * r) = 2 * Real.pi * r * 0.95 from by ring]
  refine ⟨key, ?_, ?_, cfgBoundary_invalid⟩
  · intro r hr heq
    rcases Bool.eq_false_or_eq_true (isValidCurvature cfg) with hb | hb
    · exfalso
      obtain ⟨s, hs, h1, h2, h3⟩ := key.mp hb
      rw [hr] at hs
      injection hs with h4
      subst h4
      rw [heq] at h3
      exact lt_irrefl _ h3
    · exact hb
  · intro hf
    exact ⟨screenGeometry_flat cfg hf, rfl, rfl⟩

/-- Claim C3 fails as stated: the negative ratioH = -5 of the claim's own
degenerate triple is clamped to the floor 0.1 by line 14 (Math.max applies
only after the falsy check), not to the documented default 9. -/
theorem c3_clamp_counterexample :
    cfgDegenerate.ratioH = some (-5) ∧ ratioHClamped cfgDegenerate = 0.1 ∧
    ratioHClamped cfgDegenerate ≠ 9 := by
  have h : ratioHClamped cfgDegenerate = 0.1 := by
    unfold ratioHClamped
    rw [show cfgDegenerate.ratioH = some (-5 : ℝ) from rfl,
      jsOrDefault_some_ne_zero _ _ (by norm_num)]
    exact max_eq_left (by norm_num)
  refine ⟨rfl, h, ?_⟩
  rw [h]
  norm_num

/-- Claim C3 (amended): malformed size and ratio values are clamped, never
rejected: a non-numeric (NaN) or zero input becomes the default (27 for the
diagonal, 16 for ratioW, 9 for ratioH), while any other number is clamped
from below by the floor (1 for the diagonal, 0.1 for the ratios), so a
negative input becomes the floor, not the default; for the degenerate triple
inches = "abc", ratioW = 0, ratioH = -5 this gives 27 (685.8 converted
units), 16 and 0.1 respectively, and width and height stay positive (hence
finite) on every input. -/
theorem c3_clamping (cfg : MonitorConfig) :
    (cfg.inches = none ∨ cfg.inches = some 0 → inchesClamped cfg = 27) ∧
    (∀ d, cfg.inches = some d → d ≠ 0 → inchesClamped cfg = max 1 d) ∧
    (cfg.ratioW = none ∨ cfg.ratioW = some 0 → ratioWClamped cfg = 16) ∧
    (∀ r, cfg.ratioW = some r → r ≠ 0 → ratioWClamped cfg = max 0.1 r) ∧
    (cfg.ratioH = none ∨ cfg.ratioH = some 0 → ratioHClamped cfg = 9) ∧
    (∀ r, cfg.ratioH = some r → r ≠ 0 → ratioHClamped cfg = max 0.1 r) ∧
    0 < widthMm cfg ∧ 0 < heightMm cfg ∧
    inchesClamped cfgDegenerate = 27 ∧ diagonalMm cfgDegenerate = 685.8 ∧
    ratioWClamped cfgDegenerate = 16 ∧ ratioHClamped cfgDegenerate = 0.1 := by
  refine ⟨?_, ?_, ?_, ?_, ?_, ?_, widthMm_pos cfg, heightMm_pos cfg, ?_, ?_, ?_, ?_⟩
  · rintro (h | h) <;> unfold inchesClamped <;> rw [h]
    · rw [jsOrDefault_none]
      exact max_eq_right (by norm_num)
    · rw [jsOrDefault_some_zero]
      exact max_eq_right (by norm_num)
  · intro d h hne
    unfold inchesClamped
    rw [h, jsOrDefault_some_ne_zero _ _ hne]
  · rintro (h | h) <;> unfold ratioWClamped <;> rw [h]
    · rw [jsOrDefault_none]
      exact max_eq_right (by norm_num)
    · rw [jsOrDefault_some_zero]
      exact max_eq_right (by norm_num)
  · intro r h hne
    unfold ratioWClamped
    rw [h, jsOrDefault_some_ne_zero _ _ hne]
  · rintro (h | h) <;> unfold ratioHClamped <;> rw [h]
    · rw [jsOrDefault_none]
      exact max_eq_right (by norm_num)
    · rw [jsOrDefault_some_zero]
      exact max_eq_right (by norm_num)
  · intro r h hne
    unfold ratioHClamped
    rw [h, jsOrDefault_some_ne_zero _ _ hne]
  · unfold inchesClamped
    rw [show cfgDegenerate.inches = (none : Option ℝ) from rfl, jsOrDefault_none]
    exact max_eq_right (by norm_num)
  · unfold diagonalMm inchesClamped
    rw [show cfgDegenerate.inches = (none : Option ℝ) from rfl, jsOrDefault_none]
    rw [max_eq_right (by norm_num : (1 : ℝ) ≤ 27)]
    norm_num
  · unfold ratioWClamped
    rw [show cfgDegenerate.ratioW = some (0 : ℝ) from rfl, jsOrDefault_some_zero]
    exact max_eq_right (by norm_num)
  · unfold ratioHClamped
    rw [show cfgDegenerate.ratioH = some (-5 : ℝ) from rfl,
      jsOrDefault_some_ne_zero _ _ (by norm_num)]
    exact max_eq_left (by norm_num)

/-- Claim C4: whenever curvature is accepted, the curved screen's arc angle
is theta = width / radius (the arc length formula s = rθ solved for θ with
the panel width as arc length), and the cylindrical screen spans exactly that
angle with cylinder height equal to the panel height (and the body extrusion
depth equal to it as well). -/
theorem c4_arc_angle (cfg : MonitorConfig) (h : isValidCurvature cfg = true) :
    ∃ r, cfg.curvature = some r ∧
      screenGeometry cfg = ScreenGeometry.curved (curvedGeometry cfg r) ∧
      (curvedGeometry cfg r).theta = widthMm cfg / r ∧
      (curvedGeometry cfg r).thetaStart = Real.pi - widthMm cfg / r / 2 ∧
      (curvedGeometry cfg r).cylHeight = heightMm cfg ∧
      (curvedGeometry cfg r).radius = r ∧
      (curvedGeometry cfg r).bodyDepth = heightMm cfg := by
  obtain ⟨r, hc, h1, h2, h3⟩ := (isValidCurvature_iff cfg).mp h
  exact ⟨r, hc, screenGeometry_curved cfg r hc h, rfl, rfl, rfl, rfl, rfl⟩

/-- Witness for C4 at the default panel with the 1500R curvature. -/
theorem c4_arc_angle_witness :
    ∃ r, cfg1500.curvature = some r ∧
      screenGeometry cfg1500 = ScreenGeometry.curved (curvedGeometry cfg1500 r) ∧
      (curvedGeometry cfg1500 r).theta = widthMm cfg1500 / r ∧
      (curvedGeometry cfg1500 r).thetaStart = Real.pi - widthMm cfg1500 / r / 2 ∧
      (curvedGeometry cfg1500 r).cylHeight = heightMm cfg1500 ∧
      (curvedGeometry cfg1500 r).radius = r ∧
      (curvedGeometry cfg1500 r).bodyDepth = heightMm cfg1500 :=
  c4_arc_angle cfg1500 cfg1500_valid

/-- Claim C5 fails as stated: at the accepted radius 1500 the curved screen
surface is translated to z = radius + 0.5 (line 73 adds a 0.5 gap), so its
forward offset from the group origin is 1500.5, not exactly the radius. -/
theorem c5_screen_offset_counterexample :
    isValidCurvature cfg1500 = true ∧
    screenGeometry cfg1500 = ScreenGeometry.curved (curvedGeometry cfg1500 1500) ∧
    (curvedGeometry cfg1500 1500).screenZ = 1500 + 0.5 ∧
    (1500 : ℝ) + 0.5 ≠ 1500 := by
  refine ⟨cfg1500_valid, screenGeometry_curved cfg1500 1500 rfl cfg1500_valid,
    rfl, ?_⟩
  norm_num

/-- Claim C5 (amended): for every accepted curvature the screen surface's
forward offset from the group origin is radius + 0.5 (the half-millimetre
anti-z-fighting gap of line 73) and the body's forward offset is exactly
radius (line 92); either way the centre of the arc lands at a fixed small
distance from the origin plane for every accepted radius. -/
theorem c5_curved_offsets (cfg : MonitorConfig) (r : ℝ)
    (hc : cfg.curvature = some r) (h : isValidCurvature cfg = true) :
    screenGeometry cfg = ScreenGeometry.curved (curvedGeometry cfg r) ∧
    (curvedGeometry cfg r).screenZ = r + 0.5 ∧
    (curvedGeometry cfg r).bodyZ = r :=
  ⟨screenGeometry_curved cfg r hc h, rfl, rfl⟩

/-- Witness for C5 (amended) at the default panel with the 1500R curvature. -/
theorem c5_curved_offsets_witness :
    screenGeometry cfg1500 = ScreenGeometry.curved (curvedGeometry cfg1500 1500) ∧
    (curvedGeometry cfg1500 1500).screenZ = 1500 + 0.5 ∧
    (curvedGeometry cfg1500 1500).bodyZ = 1500 :=
  c5_curved_offsets cfg1500 1500 rfl cfg1500_valid

/-- Claim C6: distanceToBottom is half the panel dimension along the up axis
after the portrait flag: width / 2 when portrait, height / 2 otherwise; and
flipping the portrait flag swaps it between the two halves while leaving the
computed width and height unchanged. -/
theorem c6_distance_to_bottom (cfg : MonitorConfig) :
    (createMonitor cfg).distanceToBottom =
      (if cfg.isPortrait then widthMm cfg else heightMm cfg) / 2 ∧
    widthMm { cfg with isPortrait := !cfg.isPortrait } = widthMm cfg ∧
    heightMm { cfg with isPortrait := !cfg.isPortrait } = heightMm cfg ∧
    (createMonitor { cfg with isPortrait := !cfg.isPortrait }).distanceToBottom =
      (if cfg.isPortrait then heightMm cfg else widthMm cfg) / 2 := by
  refine ⟨rfl, rfl, rfl, ?_⟩
  have h1 : (createMonitor { cfg with isPortrait := !cfg.isPortrait }).distanceToBottom =
      (if !cfg.isPortrait then widthMm cfg else heightMm cfg) / 2 := rfl
  rw [h1]
  cases cfg.isPortrait <;> rfl

/-- Claim C7: the derivation is total and always yields a usable descriptor:
width and height are positive on every input (clamped defaults absorb the
numeric edge cases), and the geometry is either the flat descriptor carrying
exactly those dimensions or a curved descriptor with a radius inside the
validated range and a positive arc angle; no error branch exists. -/
theorem c7_total_derivation (cfg : MonitorConfig) :
    0 < widthMm cfg ∧ 0 < heightMm cfg ∧
    ((∃ fg, screenGeometry cfg = ScreenGeometry.flat fg ∧
        fg.screenWidth = widthMm cfg ∧ fg.screenHeight = heightMm cfg) ∨
      (∃ r, cfg.curvature = some r ∧ 0 < r ∧ r < 10000 ∧
        screenGeometry cfg = ScreenGeometry.curved (curvedGeometry cfg r) ∧
        0 < (curvedGeometry cfg r).theta)) := by
  refine ⟨widthMm_pos cfg, heightMm_pos cfg, ?_⟩
  rcases Bool.eq_false_or_eq_true (isValidCurvature cfg) with hb | hb
  · obtain ⟨r, hc, h1, h2, h3⟩ := (isValidCurvature_iff cfg).mp hb
    refine Or.inr ⟨r, hc, h1, h2, screenGeometry_curved cfg r hc hb, ?_⟩
    show 0 < widthMm cfg / r
    exact div_pos (widthMm_pos cfg) h1
  · exact Or.inl ⟨flatGeometry cfg, screenGeometry_flat cfg hb, rfl, rfl⟩

/-- Claim C8: the derivation is deterministic and depends only on the
geometric inputs: two configs that agree on diagonal, ratios, curvature and
the portrait flag (the identity, name and lock flag may differ) derive the
same width, height, curvature acceptance, geometry descriptor,
distanceToBottom and z-rotation. -/
theorem c8_deterministic (c1 c2 : MonitorConfig)
    (h1 : c1.inches = c2.inches) (h2 : c1.ratioW = c2.ratioW)
    (h3 : c1.ratioH = c2.ratioH) (h4 : c1.curvature = c2.curvature)
    (h5 : c1.isPortrait = c2.isPortrait) :
    widthMm c1 = widthMm c2 ∧ heightMm c1 = heightMm c2 ∧
    isValidCurvature c1 = isValidCurvature c2 ∧
    screenGeometry c1 = screenGeometry c2 ∧
    (createMonitor c1).distanceToBottom = (createMonitor c2).distanceToBottom ∧
    (createMonitor c1).rotZ = (createMonitor c2).rotZ := by
  have hw := widthMm_congr c1 c2 h1 h2 h3
  have hh := heightMm_congr c1 c2 h1 h2 h3
  have hv : isValidCurvature c1 = isValidCurvature c2 := by
    unfold isValidCurvature
    rw [h4, hw]
  have hfg : flatGeometry c1 = flatGeometry c2 := by
    unfold flatGeometry
    rw [hw, hh]
  have hcg : ∀ r, curvedGeometry c1 r = curvedGeometry c2 r := by
    intro r
    unfold curvedGeometry
    rw [hw, hh]
  have hg : screenGeometry c1 = screenGeometry c2 := by
    unfold screenGeometry
    rw [h4, hv]
    cases c2.curvature <;> cases isValidCurvature c2 <;> simp [hfg, hcg]
  refine ⟨hw, hh, hv, hg, ?_, ?_⟩
  · show (if c1.isPortrait then widthMm c1 else heightMm c1) / 2 =
      (if c2.isPortrait then widthMm c2 else heightMm c2) / 2
    rw [h5, hw, hh]
  · show (if c1.isPortrait then -(Real.pi / 2) else 0) =
      (if c2.isPortrait then -(Real.pi / 2) else 0)
    rw [h5]

/-- Witness for C8: the default config and its renamed, re-identified and
locked copy derive identical geometry. -/
theorem c8_deterministic_witness :
    widthMm defaultConfig = widthMm defaultConfigRenamed ∧
    heightMm defaultConfig = heightMm defaultConfigRenamed ∧
    isValidCurvature defaultConfig = isValidCurvature defaultConfigRenamed ∧
    screenGeometry defaultConfig = screenGeometry defaultConfigRenamed ∧
    (createMonitor defaultConfig).distanceToBottom =
      (createMonitor defaultConfigRenamed).distanceToBottom ∧
    (createMonitor defaultConfig).rotZ = (createMonitor defaultConfigRenamed).rotZ :=
  c8_deterministic defaultConfig defaultConfigRenamed rfl rfl rfl rfl rfl

/-- Claim C9: rebuilding a monitor with a previous transform keeps the
previous position and the previous x- and y-rotations exactly, but discards
the previous z-rotation: the new z-rotation comes solely from the current
portrait flag (-π/2 when portrait, 0 otherwise). -/
theorem c9_rebuild_transform (cfg : MonitorConfig) (t : Transform) :
    (addOrUpdateMonitor cfg (some t)).posX = t.posX ∧
    (addOrUpdateMonitor cfg (some t)).posY = t.posY ∧
    (addOrUpdateMonitor cfg (some t)).posZ = t.posZ ∧
    (addOrUpdateMonitor cfg (some t)).rotX = t.rotX ∧
    (addOrUpdateMonitor cfg (some t)).rotY = t.rotY ∧
    (addOrUpdateMonitor cfg (some t)).rotZ =
      (if cfg.isPortrait then -(Real.pi / 2) else 0) :=
  ⟨rfl, rfl, rfl, rfl, rfl, rfl⟩

/-- Claim C10: a monitor placed without a previous transform spawns at
exactly (0, distanceToBottom + 50, 0): centred at x = z = 0, the panel's
lowest extent resting 50 length units above the y = 0 reference plane. -/
theorem c10_default_spawn (cfg : MonitorConfig) :
    (addOrUpdateMonitor cfg none).posX = 0 ∧
    (addOrUpdateMonitor cfg none).posY =
      (createMonitor cfg).distanceToBottom + 50 ∧
    (addOrUpdateMonitor cfg none).posZ = 0 ∧
    (createMonitor cfg).distanceToBottom =
      (if cfg.isPortrait then widthMm cfg else heightMm cfg) / 2 :=
  ⟨rfl, rfl, rfl, rfl⟩

end MonitorPlanner

end
